import Mathlib

/-!
Verification of the I2C sensor example in
src/software/examples/c/main/main.c.

The program opens an I2C bus, and in an infinite loop issues a pressure
measurement command, reads 9 bytes, decodes the first 3 as a big-endian
24-bit integer scaled by 1/100 (hPa), then issues a temperature command,
reads 6 bytes, decodes the first 2 as a big-endian 16-bit integer scaled
by 1/100 with an offset of -40 (degrees C), and prints one table row per
sample.  Floats are modelled by exact rationals; the outcomes of the OS
calls (write, read, open, ioctl) are modelled as explicit inputs.
-/

namespace DevlabMini

/-- The pure conversion step of read_pressure (main.c lines 84-85):
raw_pressure = (data[0] << 16) | (data[1] << 8) | data[2], then
divided by 100 to obtain hPa. -/
def decode_pressure (b0 b1 b2 : Nat) : ℚ :=
  ((((b0 <<< 16) ||| (b1 <<< 8)) ||| b2 : Nat) : ℚ) / 100

/-- The pure conversion step of read_temperature (main.c lines 116-117):
raw_temp = (data[0] << 8) | data[1], divided by 100, minus 40. -/
def decode_temperature (b0 b1 : Nat) : ℚ :=
  (((b0 <<< 8) ||| b1 : Nat) : ℚ) / 100 - 40

/-- Outcomes of the two OS calls made by read_pressure: the return value
of write(fd, cmd, 3), the return value of read(fd, data, 9), and the
contents of the 9-byte data buffer after the read. -/
structure PressureCalls where
  writeRet : Int
  readRet : Int
  data : Fin 9 → Nat

/-- Outcomes of the two OS calls made by read_temperature: the return
value of write(fd, cmd, 3), the return value of read(fd, data, 6), and
the contents of the 6-byte data buffer after the read. -/
structure TemperatureCalls where
  writeRet : Int
  readRet : Int
  data : Fin 6 → Nat

/-- read_pressure (main.c lines 64-88).  Returns the C return code and
the list of values stored through the output pointer (empty on the error
paths, a single store on success). -/
def read_pressure (c : PressureCalls) : Int × List ℚ :=
  if c.writeRet ≠ 3 then (-1, [])
  else if c.readRet ≠ 9 then (-1, [])
  else (0, [decode_pressure (c.data 0) (c.data 1) (c.data 2)])

/-- read_temperature (main.c lines 96-120).  Returns the C return code
and the list of values stored through the output pointer. -/
def read_temperature (c : TemperatureCalls) : Int × List ℚ :=
  if c.writeRet ≠ 3 then (-1, [])
  else if c.readRet ≠ 6 then (-1, [])
  else (0, [decode_temperature (c.data 0) (c.data 1)])

/-- init_i2c (main.c lines 42-56): returns -1 if open fails (negative
return) or if the ioctl fails (negative return), else the descriptor. -/
def init_i2c (openRet ioctlRet : Int) : Int :=
  if openRet < 0 then -1
  else if ioctlRet < 0 then -1
  else openRet

/-- One printed table cell: a fixed 2-decimal float, or the literal
string "Error". -/
inductive Cell where
  | val (x : ℚ)
  | error
deriving DecidableEq

/-- One printed table row: sample index, pressure column, temperature
column. -/
structure Row where
  sample : Nat
  pressCell : Cell
  tempCell : Cell
deriving DecidableEq

/-- The mutable locals of main that survive across loop iterations:
sample_count and the two float variables written through pointers. -/
structure LoopState where
  sample_count : Nat
  pressure : ℚ
  temperature : ℚ
deriving DecidableEq

/-- The environment of one process run: the value returned by init_i2c,
and the outcomes of the per-iteration bus calls, indexed by iteration. -/
structure Env where
  initRet : Int
  pCalls : Nat → PressureCalls
  tCalls : Nat → TemperatureCalls

def EXIT_SUCCESS : Int := 0

def EXIT_FAILURE : Int := 1

/-- One iteration of the measurement loop (main.c lines 159-176):
increment sample_count, call read_pressure; on success call
read_temperature; print the row, with "Error" in both columns when the
pressure read failed and in the temperature column when only the
temperature read failed. -/
def loopStep (e : Env) (s : LoopState) : LoopState × Row :=
  let n := s.sample_count + 1
  let pr := read_pressure (e.pCalls s.sample_count)
  let p := pr.2.headD s.pressure
  if pr.1 = 0 then
    let tr := read_temperature (e.tCalls s.sample_count)
    let t := tr.2.headD s.temperature
    if tr.1 = 0 then
      (⟨n, p, t⟩, ⟨n, Cell.val p, Cell.val t⟩)
    else
      (⟨n, p, t⟩, ⟨n, Cell.val p, Cell.error⟩)
  else
    (⟨n, p, s.temperature⟩, ⟨n, Cell.error, Cell.error⟩)

/-- Process state: still inside the while loop, or exited with a code. -/
inductive ProcState where
  | running (s : LoopState)
  | exited (code : Int)
deriving DecidableEq

/-- main before the loop (lines 147-151): if init_i2c returned a
negative value, exit with EXIT_FAILURE; otherwise enter the loop with
sample_count = 0 and the two floats holding arbitrary values p0, t0. -/
def initState (e : Env) (p0 t0 : ℚ) : ProcState :=
  if e.initRet < 0 then ProcState.exited EXIT_FAILURE
  else ProcState.running ⟨0, p0, t0⟩

/-- The process after n loop iterations: its state and the table rows
printed so far. -/
def procRun (e : Env) (p0 t0 : ℚ) : Nat → ProcState × List Row
  | 0 => (initState e p0 t0, [])
  | n + 1 =>
    let pr := procRun e p0 t0 n
    match pr.1 with
    | ProcState.running s =>
        (ProcState.running (loopStep e s).1, pr.2 ++ [(loopStep e s).2])
    | ProcState.exited c => (ProcState.exited c, pr.2)

/-- A run whose first pressure transaction has a short command write,
whose later pressure transactions succeed, and whose temperature
transactions all have a short data read. -/
def envW : Env :=
  ⟨0, fun n => if n = 0 then ⟨0, 9, fun _ => 0⟩ else ⟨3, 9, fun _ => 0⟩,
      fun _ => ⟨3, 0, fun _ => 0⟩⟩

/-- A run where init_i2c failed. -/
def envBad : Env :=
  ⟨-1, fun _ => ⟨3, 9, fun _ => 0⟩, fun _ => ⟨3, 6, fun _ => 0⟩⟩

/-- A run where every bus transaction succeeds. -/
def envGood : Env :=
  ⟨4, fun _ => ⟨3, 9, fun i => i.val⟩, fun _ => ⟨3, 6, fun i => i.val⟩⟩

/-- A successful temperature transaction with trailing bytes 7. -/
def tCallsA : TemperatureCalls :=
  ⟨3, 6, fun i => if i.val ≤ 1 then i.val + 1 else 7⟩

/-- A successful temperature transaction agreeing with tCallsA on the
first two data bytes but with trailing bytes 250. -/
def tCallsB : TemperatureCalls :=
  ⟨3, 6, fun i => if i.val ≤ 1 then i.val + 1 else 250⟩

/-- A value ORed below a shifted value adds: the low bits are free. -/
theorem mul_two_pow_lor_eq_add (k : Nat) :
    ∀ a b : Nat, b < 2 ^ k → ((a * 2 ^ k) ||| b) = a * 2 ^ k + b := by
  induction k with
  | zero =>
    intro a b h
    have hb : b = 0 := Nat.lt_one_iff.mp h
    subst hb
    simp
  | succ k ih =>
    intro a b h
    have hdec : Nat.bit (Nat.bodd b) (Nat.div2 b) = b := Nat.bit_decomp b
    have hval : 2 * Nat.div2 b + (Nat.bodd b).toNat = b := by
      have := Nat.bit_val (Nat.bodd b) (Nat.div2 b)
      omega
    have hpow : 2 ^ (k + 1) = 2 ^ k * 2 := Nat.pow_succ 2 k
    have hq : Nat.div2 b < 2 ^ k := by
      rw [Nat.div2_val]
      omega
    have ha : a * 2 ^ (k + 1) = Nat.bit false (a * 2 ^ k) := by
      rw [Nat.bit_val]
      simp [hpow]
      ring
    calc (a * 2 ^ (k + 1)) ||| b
        = Nat.bit false (a * 2 ^ k) ||| Nat.bit (Nat.bodd b) (Nat.div2 b) := by
          rw [ha, hdec]
      _ = Nat.bit (false || Nat.bodd b) ((a * 2 ^ k) ||| Nat.div2 b) :=
          Nat.lor_bit false (a * 2 ^ k) (Nat.bodd b) (Nat.div2 b)
      _ = Nat.bit (Nat.bodd b) (a * 2 ^ k + Nat.div2 b) := by
          rw [Bool.false_or, ih a (Nat.div2 b) hq]
      _ = a * 2 ^ (k + 1) + b := by
          rw [Nat.bit_val]
          have ha2 : a * 2 ^ (k + 1) = 2 * (a * 2 ^ k) := by
            rw [hpow]
            ring
          omega

/-- Shift form of the previous lemma, matching the C expressions. -/
theorem shiftLeft_lor_eq_add (a k b : Nat) (h : b < 2 ^ k) :
    ((a <<< k) ||| b) = a * 2 ^ k + b := by
  rw [Nat.shiftLeft_eq]
  exact mul_two_pow_lor_eq_add k a b h

/-- The 24-bit raw pressure word as a plain sum of weighted bytes. -/
theorem raw_pressure_eq (b0 b1 b2 : Nat) (h1 : b1 < 256) (h2 : b2 < 256) :
    (((b0 <<< 16) ||| (b1 <<< 8)) ||| b2 : Nat) = b0 * 65536 + b1 * 256 + b2 := by
  rw [Nat.lor_assoc]
  have hin : ((b1 <<< 8) ||| b2) = b1 * 256 + b2 := by
    have := shiftLeft_lor_eq_add b1 8 b2 (by norm_num; omega)
    simpa using this
  rw [hin]
  have hout : b1 * 256 + b2 < 2 ^ 16 := by norm_num; omega
  have := shiftLeft_lor_eq_add b0 16 (b1 * 256 + b2) hout
  simpa [Nat.add_assoc] using this

/-- The 16-bit raw temperature word as a plain sum of weighted bytes. -/
theorem raw_temp_eq (b0 b1 : Nat) (h1 : b1 < 256) :
    ((b0 <<< 8) ||| b1 : Nat) = b0 * 256 + b1 := by
  have := shiftLeft_lor_eq_add b0 8 b1 (by norm_num; omega)
  simpa using this

/-- C1: for every 3-byte raw sequence, the pressure conversion step of
read_pressure interprets the bytes as a big-endian 24-bit unsigned
integer and divides by 100 to yield hPa; it is a total function of the
bytes and never fails. -/
theorem pressure_decoder_bigEndian (b0 b1 b2 : Nat)
    (h0 : b0 < 256) (h1 : b1 < 256) (h2 : b2 < 256) :
    decode_pressure b0 b1 b2 = ((b0 * 65536 + b1 * 256 + b2 : Nat) : ℚ) / 100 := by
  unfold decode_pressure
  rw [raw_pressure_eq b0 b1 b2 h1 h2]

/-- Witness for C1 at bytes [0x12, 0x34, 0x56]. -/
theorem pressure_decoder_bigEndian_witness :
    decode_pressure 18 52 86 = ((18 * 65536 + 52 * 256 + 86 : Nat) : ℚ) / 100 :=
  pressure_decoder_bigEndian 18 52 86 (by decide) (by decide) (by decide)

/-- C2: for every 2-byte raw sequence, the temperature conversion step
of read_temperature interprets the bytes as a big-endian 16-bit unsigned
integer, divides by 100 and subtracts 40 to yield degrees Celsius; it is
a total function of the bytes. -/
theorem temperature_decoder_bigEndian (b0 b1 : Nat)
    (h0 : b0 < 256) (h1 : b1 < 256) :
    decode_temperature b0 b1 = ((b0 * 256 + b1 : Nat) : ℚ) / 100 - 40 := by
  unfold decode_temperature
  rw [raw_temp_eq b0 b1 h1]

/-- Witness for C2 at bytes [0x12, 0x34]. -/
theorem temperature_decoder_bigEndian_witness :
    decode_temperature 18 52 = ((18 * 256 + 52 : Nat) : ℚ) / 100 - 40 :=
  temperature_decoder_bigEndian 18 52 (by decide) (by decide)

/-- C5: pressure boundary values: bytes [0,0,0] decode to 0.0 and bytes
[0xFF,0xFF,0xFF] decode to 167772.15 hPa. -/
theorem pressure_decoder_boundaries :
    decode_pressure 0 0 0 = 0 ∧ decode_pressure 255 255 255 = 167772.15 := by
  constructor
  · unfold decode_pressure
    norm_num
  · unfold decode_pressure
    have h : (((255 <<< 16) ||| (255 <<< 8)) ||| 255 : Nat) = 16777215 := by decide
    rw [h]
    norm_num

/-- C6: temperature boundary values: bytes [0,0] decode to -40.0 and
bytes [0x27,0x10] (raw 10000) decode to 60.0 degrees C. -/
theorem temperature_decoder_boundaries :
    decode_temperature 0 0 = -40 ∧ decode_temperature 39 16 = 60 := by
  constructor
  · unfold decode_temperature
    norm_num
  · unfold decode_temperature
    have h : ((39 <<< 8) ||| 16 : Nat) = 10000 := by decide
    rw [h]
    norm_num

/-- read_pressure either fails with -1 and no store, or succeeds with 0
and a single store of the decoded value. -/
theorem read_pressure_cases (c : PressureCalls) :
    read_pressure c = (-1, []) ∨
    read_pressure c = (0, [decode_pressure (c.data 0) (c.data 1) (c.data 2)]) := by
  unfold read_pressure
  split
  · exact Or.inl rfl
  · split
    · exact Or.inl rfl
    · exact Or.inr rfl

/-- read_temperature either fails with -1 and no store, or succeeds with
0 and a single store of the decoded value. -/
theorem read_temperature_cases (c : TemperatureCalls) :
    read_temperature c = (-1, []) ∨
    read_temperature c = (0, [decode_temperature (c.data 0) (c.data 1)]) := by
  unfold read_temperature
  split
  · exact Or.inl rfl
  · split
    · exact Or.inl rfl
    · exact Or.inr rfl

/-- When initialization succeeded, the process is still inside the loop
after any number of iterations, with one printed row per iteration and
sample_count equal to the iteration count. -/
theorem procRun_running (e : Env) (p0 t0 : ℚ) (h : ¬ e.initRet < 0) :
    ∀ n, ∃ s, (procRun e p0 t0 n).1 = ProcState.running s ∧
      (procRun e p0 t0 n).2.length = n ∧ s.sample_count = n := by
  intro n
  induction n with
  | zero =>
    refine ⟨⟨0, p0, t0⟩, ?_, rfl, rfl⟩
    simp [procRun, initState, h]
  | succ n ih =>
    obtain ⟨s, hs, hl, hc⟩ := ih
    refine ⟨(loopStep e s).1, ?_, ?_, ?_⟩
    · simp [procRun, hs]
    · simp [procRun, hs, hl]
    · simp [loopStep]
      split
      · split
        · simpa using hc
        · simpa using hc
      · simpa using hc

/-- A short command write or a short data read makes read_pressure fail
with -1 and no store through the output pointer. -/
theorem read_pressure_fail (c : PressureCalls)
    (h : c.writeRet ≠ 3 ∨ c.readRet ≠ 9) : read_pressure c = (-1, []) := by
  unfold read_pressure
  rcases h with h | h
  · simp [h]
  · split
    · rfl
    · simp [h]

/-- Full-count write and read make read_pressure succeed with exactly
one store of the decoded value. -/
theorem read_pressure_ok (c : PressureCalls)
    (hw : c.writeRet = 3) (hr : c.readRet = 9) :
    read_pressure c = (0, [decode_pressure (c.data 0) (c.data 1) (c.data 2)]) := by
  unfold read_pressure
  simp [hw, hr]

/-- A short command write or a short data read makes read_temperature
fail with -1 and no store through the output pointer. -/
theorem read_temperature_fail (c : TemperatureCalls)
    (h : c.writeRet ≠ 3 ∨ c.readRet ≠ 6) : read_temperature c = (-1, []) := by
  unfold read_temperature
  rcases h with h | h
  · simp [h]
  · split
    · rfl
    · simp [h]

/-- Full-count write and read make read_temperature succeed with exactly
one store of the decoded value. -/
theorem read_temperature_ok (c : TemperatureCalls)
    (hw : c.writeRet = 3) (hr : c.readRet = 6) :
    read_temperature c = (0, [decode_temperature (c.data 0) (c.data 1)]) := by
  unfold read_temperature
  simp [hw, hr]

/-- With a failed initialization the process never runs an iteration. -/
theorem procRun_exited (e : Env) (p0 t0 : ℚ) (h : e.initRet < 0) :
    ∀ n, procRun e p0 t0 n = (ProcState.exited EXIT_FAILURE, []) := by
  intro n
  induction n with
  | zero => simp [procRun, initState, h]
  | succ n ih => simp [procRun, ih]

/-- C3: per-sample I/O failures are caught locally: a failed pressure
transaction puts the literal Error in the pressure column, a failed
temperature transaction (after a successful pressure read) puts Error in
the temperature column, and the loop always advances to the next sample
(sample_count increments and one row is printed per iteration,
unconditionally). -/
theorem per_sample_errors_isolated (e : Env) (s : LoopState) (p0 t0 : ℚ)
    (n : Nat) (hinit : ¬ e.initRet < 0) :
    (((e.pCalls s.sample_count).writeRet ≠ 3 ∨
      (e.pCalls s.sample_count).readRet ≠ 9) →
        (loopStep e s).2.pressCell = Cell.error) ∧
    ((e.pCalls s.sample_count).writeRet = 3 →
     (e.pCalls s.sample_count).readRet = 9 →
     ((e.tCalls s.sample_count).writeRet ≠ 3 ∨
      (e.tCalls s.sample_count).readRet ≠ 6) →
        (loopStep e s).2.tempCell = Cell.error) ∧
    (loopStep e s).1.sample_count = s.sample_count + 1 ∧
    (procRun e p0 t0 n).2.length = n := by
  refine ⟨?_, ?_, ?_, ?_⟩
  · intro hf
    simp [loopStep, read_pressure_fail _ hf]
  · intro hw hr hf
    simp [loopStep, read_pressure_ok _ hw hr, read_temperature_fail _ hf]
  · simp [loopStep]
    split
    · split <;> rfl
    · rfl
  · obtain ⟨s2, -, hl, -⟩ := procRun_running e p0 t0 hinit n
    exact hl

/-- Witness for C3: in envW the pressure column of sample 1 is Error
(short command write at iteration 0), the temperature column of sample 2
is Error (short data read), and two iterations print two rows. -/
theorem per_sample_errors_isolated_witness :
    (loopStep envW ⟨0, 0, 0⟩).2.pressCell = Cell.error ∧
    (loopStep envW ⟨1, 0, 0⟩).2.tempCell = Cell.error ∧
    (loopStep envW ⟨0, 0, 0⟩).1.sample_count = 0 + 1 ∧
    (procRun envW 0 0 2).2.length = 2 :=
  have h0 := per_sample_errors_isolated envW ⟨0, 0, 0⟩ 0 0 2 (by decide)
  have h1 := per_sample_errors_isolated envW ⟨1, 0, 0⟩ 0 0 2 (by decide)
  ⟨h0.1 (Or.inl (by decide)),
   h1.2.1 (by decide) (by decide) (Or.inr (by decide)),
   h0.2.2.1, h0.2.2.2⟩

/-- C4: when opening or claiming the bus fails, init_i2c returns -1; a
negative init_i2c return makes main exit with EXIT_FAILURE, which is
non-zero, after printing no sample row. -/
theorem init_failure_fatal (e : Env) (p0 t0 : ℚ) (n : Nat)
    (h : e.initRet < 0) :
    (∀ a b : Int, (a < 0 ∨ b < 0) → init_i2c a b = -1) ∧
    (procRun e p0 t0 n).1 = ProcState.exited EXIT_FAILURE ∧
    (procRun e p0 t0 n).2 = [] ∧ EXIT_FAILURE ≠ (0 : Int) := by
  refine ⟨?_, ?_, ?_, by decide⟩
  · intro a b hab
    unfold init_i2c
    rcases hab with ha | hb
    · simp [ha]
    · split
      · rfl
      · simp [hb]
  · rw [procRun_exited e p0 t0 h n]
  · rw [procRun_exited e p0 t0 h n]

/-- Witness for C4 in envBad (init_i2c returned -1), after 3 steps. -/
theorem init_failure_fatal_witness :
    init_i2c (-1) 0 = -1 ∧
    (procRun envBad 0 0 3).1 = ProcState.exited EXIT_FAILURE ∧
    (procRun envBad 0 0 3).2 = [] :=
  have h := init_failure_fatal envBad 0 0 3 (by decide)
  ⟨h.1 (-1) 0 (Or.inl (by decide)), h.2.1, h.2.2.1⟩

/-- C9: once initialization has succeeded the loop never terminates:
after any number of iterations the process is still inside the loop and
has not exited with any code, so the EXIT_SUCCESS return (and the close
call before it) is unreachable. -/
theorem loop_never_terminates (e : Env) (p0 t0 : ℚ) (n : Nat)
    (h : ¬ e.initRet < 0) :
    (∃ s, (procRun e p0 t0 n).1 = ProcState.running s) ∧
    ∀ c : Int, (procRun e p0 t0 n).1 ≠ ProcState.exited c := by
  obtain ⟨s, hs, -, -⟩ := procRun_running e p0 t0 h n
  refine ⟨⟨s, hs⟩, fun c hc => ?_⟩
  rw [hs] at hc
  cases hc

/-- Witness for C9 in envGood after 3 iterations. -/
theorem loop_never_terminates_witness :
    (∃ s, (procRun envGood 0 0 3).1 = ProcState.running s) ∧
    ∀ c : Int, (procRun envGood 0 0 3).1 ≠ ProcState.exited c :=
  loop_never_terminates envGood 0 0 3 (by decide)

/-- C7: decoding is pure, stateless and deterministic: two loop
iterations whose bus transactions return the same values produce the
same pressure and temperature cells, whatever the iteration index and
whatever the previous samples left in the loop state. -/
theorem decoding_pure_no_history (e e2 : Env) (s s2 : LoopState)
    (hp : e.pCalls s.sample_count = e2.pCalls s2.sample_count)
    (ht : e.tCalls s.sample_count = e2.tCalls s2.sample_count) :
    (loopStep e s).2.pressCell = (loopStep e2 s2).2.pressCell ∧
    (loopStep e s).2.tempCell = (loopStep e2 s2).2.tempCell := by
  have hp2 : read_pressure (e2.pCalls s2.sample_count) =
      read_pressure (e.pCalls s.sample_count) := by rw [hp]
  have ht2 : read_temperature (e2.tCalls s2.sample_count) =
      read_temperature (e.tCalls s.sample_count) := by rw [ht]
  rcases read_pressure_cases (e.pCalls s.sample_count) with h | h
  · constructor <;> simp [loopStep, h, hp2]
  · rcases read_temperature_cases (e.tCalls s.sample_count) with h2 | h2 <;>
      constructor <;> simp [loopStep, h, hp2, h2, ht2]

/-- Witness for C7: iterations 0 and 5 of envGood, started from
different loop states, print the same pressure and temperature cells. -/
theorem decoding_pure_no_history_witness :
    (loopStep envGood ⟨0, 0, 0⟩).2.pressCell =
      (loopStep envGood ⟨5, 3, 7⟩).2.pressCell ∧
    (loopStep envGood ⟨0, 0, 0⟩).2.tempCell =
      (loopStep envGood ⟨5, 3, 7⟩).2.tempCell :=
  decoding_pure_no_history envGood envGood ⟨0, 0, 0⟩ ⟨5, 3, 7⟩ rfl rfl

/-- C8: the temperature produced by read_temperature depends only on the
first 2 of the 6 bytes read: two transactions with the same call return
values whose buffers agree on bytes 0 and 1 give identical results,
whatever bytes 2 through 5 hold. -/
theorem temperature_ignores_trailing_bytes (c c2 : TemperatureCalls)
    (hw : c.writeRet = c2.writeRet) (hr : c.readRet = c2.readRet)
    (h0 : c.data 0 = c2.data 0) (h1 : c.data 1 = c2.data 1) :
    read_temperature c = read_temperature c2 := by
  unfold read_temperature
  rw [hw, hr, h0, h1]

/-- Witness for C8: tCallsA and tCallsB differ in bytes 2-5 only. -/
theorem temperature_ignores_trailing_bytes_witness :
    read_temperature tCallsA = read_temperature tCallsB :=
  temperature_ignores_trailing_bytes tCallsA tCallsB rfl rfl
    (by decide) (by decide)

/-- C10: on a short write or short read both readers return -1 having
stored nothing through their output pointer (the empty store list), and
on the success path they return 0 having stored the decoded value
exactly once (a singleton store list). -/
theorem read_frame (c : PressureCalls) (d : TemperatureCalls) :
    ((c.writeRet ≠ 3 ∨ c.readRet ≠ 9) → read_pressure c = (-1, [])) ∧
    (c.writeRet = 3 → c.readRet = 9 →
      read_pressure c = (0, [decode_pressure (c.data 0) (c.data 1) (c.data 2)])) ∧
    ((d.writeRet ≠ 3 ∨ d.readRet ≠ 6) → read_temperature d = (-1, [])) ∧
    (d.writeRet = 3 → d.readRet = 6 →
      read_temperature d = (0, [decode_temperature (d.data 0) (d.data 1)])) :=
  ⟨read_pressure_fail c, read_pressure_ok c,
   read_temperature_fail d, read_temperature_ok d⟩

/-- Witness for C10: a short pressure write, a successful pressure
transaction, a short temperature read, a successful temperature
transaction. -/
theorem read_frame_witness :
    read_pressure ⟨2, 9, fun _ => 0⟩ = (-1, []) ∧
    read_pressure ⟨3, 9, fun _ => 5⟩ = (0, [decode_pressure 5 5 5]) ∧
    read_temperature ⟨3, 5, fun _ => 0⟩ = (-1, []) ∧
    read_temperature ⟨3, 6, fun _ => 5⟩ = (0, [decode_temperature 5 5]) :=
  have h1 := read_frame ⟨2, 9, fun _ => 0⟩ ⟨3, 5, fun _ => 0⟩
  have h2 := read_frame ⟨3, 9, fun _ => 5⟩ ⟨3, 6, fun _ => 5⟩
  ⟨h1.1 (Or.inl (by decide)), h2.2.1 rfl rfl,
   h1.2.2.1 (Or.inr (by decide)), h2.2.2.2 rfl rfl⟩

end DevlabMini
